import Mathlib

/-!
Shallow embedding of `src/calc_plans.py` (pyDTEPower): the rate-matching and
billing-accumulation engine.  Timestamps are modelled as calendar tuples
ordered lexicographically (the order of same-timezone `arrow` instants);
Python `Decimal` values are modelled as exact rationals (`ℚ`).
-/

namespace CalcPlans

/-- A calendar timestamp, as the fields of an `arrow` instant in the single
configured time zone.  Comparison of two instants in that zone is the
lexicographic order on these fields. -/
structure TS where
  year : Nat
  month : Nat
  day : Nat
  hour : Nat
  minute : Nat
  second : Nat
  micro : Nat
deriving DecidableEq

/-- Lexicographic (calendar) order on timestamps: models `<=` on `arrow`
instants in one time zone. -/
def TS.leb (a b : TS) : Bool :=
  decide (a.year < b.year) ||
  (decide (a.year = b.year) &&
    (decide (a.month < b.month) ||
      (decide (a.month = b.month) &&
        (decide (a.day < b.day) ||
          (decide (a.day = b.day) &&
            (decide (a.hour < b.hour) ||
              (decide (a.hour = b.hour) &&
                (decide (a.minute < b.minute) ||
                  (decide (a.minute = b.minute) &&
                    (decide (a.second < b.second) ||
                      (decide (a.second = b.second) &&
                        decide (a.micro ≤ b.micro))))))))))))

/-- Models `Timestamp.floor("day")`: start of the calendar day. -/
def TS.floorDay (t : TS) : TS :=
  { t with hour := 0, minute := 0, second := 0, micro := 0 }

/-- Models `Timestamp.ceil("day")`: end of the calendar day
(23:59:59.999999). -/
def TS.ceilDay (t : TS) : TS :=
  { t with hour := 23, minute := 59, second := 59, micro := 999999 }

/-- Models `Timestamp.ceil("hour")`: end of the hour (h:59:59.999999). -/
def TS.ceilHour (t : TS) : TS :=
  { t with minute := 59, second := 59, micro := 999999 }

/-- Models `Timestamp.clone().replace(month=m, day=d)`: replaces only the
month and day fields, keeping the time of day. -/
def TS.replaceMD (t : TS) (m d : Nat) : TS :=
  { t with month := m, day := d }

/-- Models `Timestamp.clone().replace(hour=h)`: replaces only the hour
field, keeping minute, second and microsecond. -/
def TS.replaceHour (t : TS) (h : Nat) : TS :=
  { t with hour := h }

/-- Models `Timestamp.shift(years=+k)`. -/
def TS.shiftYears (t : TS) (k : Nat) : TS :=
  { t with year := t.year + k }

/-- Models `t.is_between(a, b)` with inclusive bounds on both ends, as every
call site passes the closed-interval bounds argument. -/
def TS.isBetween (t a b : TS) : Bool :=
  a.leb t && t.leb b

/-- Models `Timestamp.date()`: the (year, month, day) triple. -/
def TS.date (t : TS) : Nat × Nat × Nat :=
  (t.year, t.month, t.day)

/-- Strict lexicographic order on dates: models `<` on Python `date`
objects. -/
def dateLtb (a b : Nat × Nat × Nat) : Bool :=
  decide (a.1 < b.1) ||
  (decide (a.1 = b.1) &&
    (decide (a.2.1 < b.2.1) ||
      (decide (a.2.1 = b.2.1) && decide (a.2.2 < b.2.2))))

/-- A reading row, with the fields the engine predicates and cost formula
read: the parsed `Timestamp`, the `Hourly Total` usage, and the
`Daily Cumulative` value computed by the accumulator.  `Decimal` values are
exact rationals. -/
structure Row where
  ts : TS
  hourlyTotal : ℚ
  dailyCumulative : ℚ

/-- A raw reading row before the accumulator runs (no `Daily Cumulative`
yet). -/
structure RawRow where
  ts : TS
  hourlyTotal : ℚ

/-- The `RateCondition` dataclass: a key, a description string, and a
predicate over a row (the source field is called `match`, a Lean
keyword). -/
structure RateCondition where
  key : String
  condition : String
  matchFn : Row → Bool

/-- `RateCondition.is_rate`: evaluate the predicate.  The optional debug
printing is pure diagnostics and does not affect the returned value. -/
def RateCondition.is_rate (c : RateCondition) (row : Row) : Bool :=
  c.matchFn row

/-- The `PlanRate` dataclass: a tier name, three per-kWh charges in cents,
and a list of conditions. -/
structure PlanRate where
  name : String
  distribution : ℚ
  capacity : ℚ
  non_capacity : ℚ
  conditions : List RateCondition

/-- `PlanRate.is_rate`: the tier applies iff every condition matches; the
source loops over the conditions and returns `False` at the first failing
one. -/
def PlanRate.is_rate (r : PlanRate) (row : Row) : Bool :=
  r.conditions.all (fun c => c.is_rate row)

/-- `PlanRate.cost`: zero when the tier does not apply, otherwise
`Hourly Total * (distribution + capacity + non_capacity) / 100`, all in
exact decimal arithmetic. -/
def PlanRate.cost (r : PlanRate) (row : Row) : ℚ :=
  if !(r.is_rate row) then 0
  else row.hourlyTotal * (r.distribution + r.capacity + r.non_capacity) / 100

/-- The `PricePlan` dataclass: a plan name, an ordered list of tiers, and a
per-month service charge.  The generated constructor performs no
validation. -/
structure PricePlan where
  name : String
  rates : List PlanRate
  service_charge : ℚ

/-- The loop body of `PricePlan.match_rate`: return the first tier in
declared order whose `is_rate` holds, else fall through. -/
def matchRateAux (rates : List PlanRate) (row : Row) : Option PlanRate :=
  match rates with
  | [] => none
  | r :: rest => if r.is_rate row then some r else matchRateAux rest row

/-- `PricePlan.match_rate`: first matching tier in declared order; when no
tier matches, the source prints a diagnostic to stderr, re-runs every tier
with debug output, and returns `None` (modelled as `none`). -/
def PricePlan.match_rate (p : PricePlan) (row : Row) : Option PlanRate :=
  matchRateAux p.rates row

/-- `PricePlan.cost`: zero when `match_rate` returns `None`, otherwise the
cost of the matched tier. -/
def PricePlan.cost (p : PricePlan) (row : Row) : ℚ :=
  match p.match_rate row with
  | none => 0
  | some r => r.cost row

/-- The `__main__` annotation of the per-plan Rate column, which evaluates
`plan.match_rate(row).name`.  Attribute access on `None` raises
`AttributeError`, so the expression is fallible and is modelled as an
`Option`, where `none` is the raised exception. -/
def annotateRateName (p : PricePlan) (row : Row) : Option String :=
  (p.match_rate row).map PlanRate.name

/-! ### The configured plans D1 and D1.2 -/

/-- D1 threshold condition `<=17` on `Daily Cumulative`. -/
def d1CondLe17 : RateCondition :=
  ⟨"Daily Cumulative", "<=17", fun row => decide (row.dailyCumulative ≤ 17)⟩

/-- D1 threshold condition `>17` on `Daily Cumulative`. -/
def d1CondGt17 : RateCondition :=
  ⟨"Daily Cumulative", ">17", fun row => decide (row.dailyCumulative > 17)⟩

/-- D1 tier `First 17kWh`. -/
def d1Rate1 : PlanRate :=
  ⟨"First 17kWh", 6611/1000, 4500/1000, 4176/1000, [d1CondLe17]⟩

/-- D1 tier `After 17kWh`. -/
def d1Rate2 : PlanRate :=
  ⟨"After 17kWh", 6611/1000, 6484/1000, 4176/1000, [d1CondGt17]⟩

/-- The D1 residential plan. -/
def planD1 : PricePlan :=
  ⟨"D1", [d1Rate1, d1Rate2], 750/100⟩

/-- D1.2 summer calendar condition, `06/01 <= day <= 10/31` in the source:
the day-floored timestamp tested between `replace(month=6, day=1)` of the
timestamp itself and the day-ceiling of `replace(month=10, day=31)`,
inclusive on both ends.  Note the lower bound keeps the time of day of the
reading. -/
def d12SummerCalCond : RateCondition :=
  ⟨"Timestamp", "06/01 <= day <= 10/31", fun row =>
    TS.isBetween (row.ts.floorDay) (row.ts.replaceMD 6 1)
      ((row.ts.replaceMD 10 31).ceilDay)⟩

/-- D1.2 winter calendar condition, `11/01 <= day <= 5/31` in the source:
the day-floored timestamp tested between `replace(month=11, day=1)` of the
timestamp itself and the day-ceiling of `replace(month=5, day=31)` shifted
one year forward, inclusive on both ends.  Note both anchors take the year
of the reading itself. -/
def d12WinterCalCond : RateCondition :=
  ⟨"Timestamp", "11/01 <= day <= 5/31", fun row =>
    TS.isBetween (row.ts.floorDay) (row.ts.replaceMD 11 1)
      (((row.ts.replaceMD 5 31).shiftYears 1).ceilDay)⟩

/-- D1.2 off-peak hour condition, `19:00:00 <= hour <= 10:59:59` in the
source: the OR of the timestamp tested between `replace(hour=19)` and the
hour-ceiling of `replace(hour=23)`, and between `replace(hour=0)` and the
hour-ceiling of `replace(hour=10)`, inclusive on both ends.  Used verbatim
by both the summer and the winter off-peak tiers. -/
def d12OffPeakHourCond : RateCondition :=
  ⟨"Timestamp", "19:00:00 <= hour <= 10:59:59", fun row =>
    TS.isBetween row.ts (row.ts.replaceHour 19)
        ((row.ts.replaceHour 23).ceilHour) ||
      TS.isBetween row.ts (row.ts.replaceHour 0)
        ((row.ts.replaceHour 10).ceilHour)⟩

/-- D1.2 on-peak hour condition, `11:00:00 <= hour <= 18:59:59` in the
source. -/
def d12OnPeakHourCond : RateCondition :=
  ⟨"Timestamp", "11:00:00 <= hour <= 18:59:59", fun row =>
    TS.isBetween row.ts (row.ts.replaceHour 11)
      ((row.ts.replaceHour 18).ceilHour)⟩

/-- D1.2 tier `Time-of-Day Summer Off-Peak`. -/
def d12SummerOffPeak : PlanRate :=
  ⟨"Time-of-Day Summer Off-Peak", 6611/1000, 1160/1000, 4261/1000,
    [d12SummerCalCond, d12OffPeakHourCond]⟩

/-- D1.2 tier `Time-of-Day Summer On-Peak`. -/
def d12SummerOnPeak : PlanRate :=
  ⟨"Time-of-Day Summer On-Peak", 6611/1000, 11841/1000, 4261/1000,
    [d12SummerCalCond, d12OnPeakHourCond]⟩

/-- D1.2 tier `Time-of-Day Winter Off-Peak`. -/
def d12WinterOffPeak : PlanRate :=
  ⟨"Time-of-Day Winter Off-Peak", 6611/1000, 948/1000, 4261/1000,
    [d12WinterCalCond, d12OffPeakHourCond]⟩

/-- D1.2 tier `Time-of-Day Winter On-Peak`. -/
def d12WinterOnPeak : PlanRate :=
  ⟨"Time-of-Day Winter On-Peak", 6611/1000, 9341/1000, 4261/1000,
    [d12WinterCalCond, d12OnPeakHourCond]⟩

/-- The D1.2 Time of Day plan. -/
def planD1_2 : PricePlan :=
  ⟨"D1.2", [d12SummerOffPeak, d12SummerOnPeak, d12WinterOffPeak,
    d12WinterOnPeak], 750/100⟩

/-! ### Daily accumulator (the per-meter cumulative loop in `__main__`) -/

/-- The body of the daily cumulative loop over one sorted (account, meter)
group: it carries the current date `d` and the running tally `t`; a row
dated strictly later than `d` resets the tally to zero and updates `d`;
each row is annotated with `tally + Hourly Total`, which becomes the new
tally. -/
def dailyGo (d : Nat × Nat × Nat) (t : ℚ) : List RawRow → List Row
  | [] => []
  | r :: rest =>
    let d2 := if dateLtb d (TS.date r.ts) then TS.date r.ts else d
    let t2 := if dateLtb d (TS.date r.ts) then (0 : ℚ) else t
    let cum := t2 + r.hourlyTotal
    Row.mk r.ts r.hourlyTotal cum :: dailyGo d2 cum rest

/-- The daily cumulative loop: the current date starts at the date of the
first row and the tally at zero, then every row of the group is processed
in order. -/
def dailyAnnotate (rows : List RawRow) : List Row :=
  match rows with
  | [] => []
  | r :: rest => dailyGo (TS.date r.ts) 0 (r :: rest)

/-- The accumulator state exactly as the spec words it: a record of the
current date and the running total. -/
structure AccState where
  current_date : Nat × Nat × Nat
  running_total : ℚ

/-- One step of the left fold described by the spec: if the date of the
reading is strictly later than `current_date`, reset `running_total` to
zero and update `current_date`; then add the hourly usage of the reading to
`running_total` and emit it as the daily cumulative value of the
reading. -/
def accumStep (st : AccState) (r : RawRow) : AccState × ℚ :=
  let st1 := if dateLtb st.current_date (TS.date r.ts)
    then AccState.mk (TS.date r.ts) 0 else st
  let total := st1.running_total + r.hourlyTotal
  (AccState.mk st1.current_date total, total)

/-- The left fold of `accumStep` over a sorted group, emitting the daily
cumulative value of each reading. -/
def accumFold : AccState → List RawRow → List ℚ
  | _, [] => []
  | st, r :: rest => (accumStep st r).2 :: accumFold (accumStep st r).1 rest

/-- The daily accumulator as section 4.5 of the spec words it:
`running_total` initialized to zero, `current_date` initialized to the date
of the first reading, then a left fold of `accumStep`. -/
def specDailyCumulative (rows : List RawRow) : List ℚ :=
  match rows with
  | [] => []
  | r :: rest => accumFold (AccState.mk (TS.date r.ts) 0) (r :: rest)

/-- The tier cost formula as section 4.3 of the spec words it: zero if the
tier does not apply, otherwise
`hourly_usage * (distribution + capacity + non_capacity) / 100`, in exact
decimal arithmetic. -/
def costPerSpec (r : PlanRate) (row : Row) : ℚ :=
  if r.is_rate row
  then row.hourlyTotal * (r.distribution + r.capacity + r.non_capacity) / 100
  else 0

/-! ### Concrete inputs used by the theorems -/

/-- A zero-tier plan: the `PricePlan` dataclass constructor accepts it
unchanged, since no validation is generated or written. -/
def emptyPlan : PricePlan :=
  ⟨"Empty", [], 750/100⟩

/-- Dec 15, 2024 at 13:00, hourly usage 2.5, daily cumulative 10. -/
def rowDec15 : Row := ⟨⟨2024, 12, 15, 13, 0, 0, 0⟩, 5/2, 10⟩

/-- Mar 1, 2025 at 00:00 — the year following winter-window year 2024. -/
def rowMar1 : Row := ⟨⟨2025, 3, 1, 0, 0, 0, 0⟩, 5/2, 10⟩

/-- Jul 1, 2024 at 00:00. -/
def rowJul1 : Row := ⟨⟨2024, 7, 1, 0, 0, 0, 0⟩, 5/2, 10⟩

/-- Jun 1, 2024 at midnight. -/
def rowJun1Mid : Row := ⟨⟨2024, 6, 1, 0, 0, 0, 0⟩, 5/2, 10⟩

/-- Jun 1, 2024 at 13:00. -/
def rowJun1Pm : Row := ⟨⟨2024, 6, 1, 13, 0, 0, 0⟩, 5/2, 10⟩

/-- Oct 31, 2024 at 13:00. -/
def rowOct31Pm : Row := ⟨⟨2024, 10, 31, 13, 0, 0, 0⟩, 5/2, 10⟩

/-- Nov 1, 2024 at 13:00. -/
def rowNov1Pm : Row := ⟨⟨2024, 11, 1, 13, 0, 0, 0⟩, 5/2, 10⟩

/-- A summer reading at hour `h`, minute 30, for the hour-window tests. -/
def hourRow (h : Nat) : Row := ⟨⟨2024, 6, 2, h, 30, 0, 0⟩, 1, 1⟩

/-- A reading whose daily cumulative usage is exactly 17. -/
def row17 : Row := ⟨⟨2024, 12, 15, 13, 0, 0, 0⟩, 1, 17⟩

/-- A reading whose daily cumulative usage is 17.0001. -/
def row17plus : Row := ⟨⟨2024, 12, 15, 13, 0, 0, 0⟩, 1, 170001/10000⟩

/-- The daily-reset example of the spec: usages 10 and 5 on day 1 and 3 on
day 2. -/
def exampleRawRows : List RawRow :=
  [⟨⟨2024, 1, 1, 0, 0, 0, 0⟩, 10⟩,
   ⟨⟨2024, 1, 1, 1, 0, 0, 0⟩, 5⟩,
   ⟨⟨2024, 1, 2, 0, 0, 0, 0⟩, 3⟩]

/-! ### Theorems -/

/-- The loop of `dailyGo` computes the same cumulative values as the left
fold of `accumStep` started from the same state. -/
lemma dailyGo_eq_accumFold (rows : List RawRow) :
    ∀ (d : Nat × Nat × Nat) (t : ℚ),
      (dailyGo d t rows).map Row.dailyCumulative = accumFold ⟨d, t⟩ rows := by
  induction rows with
  | nil => intro d t; rfl
  | cons r rest ih =>
    intro d t
    by_cases h : dateLtb d (TS.date r.ts) = true
    · simp [dailyGo, accumFold, accumStep, h, ih]
    · simp [dailyGo, accumFold, accumStep, h, ih]

/-- First-match semantics of the `match_rate` loop: if the tier at index `i`
matches, then the loop returns some tier at an index `j ≤ i` that matches,
and every tier declared before index `j` fails to match. -/
lemma matchRateAux_first (row : Row) :
    ∀ (rates : List PlanRate) (i : Nat) (hi : i < rates.length),
      (rates.get ⟨i, hi⟩).is_rate row = true →
      ∃ j, ∃ hj : j < rates.length, j ≤ i ∧
        matchRateAux rates row = some (rates.get ⟨j, hj⟩) ∧
        (rates.get ⟨j, hj⟩).is_rate row = true ∧
        ∀ k, ∀ hk : k < rates.length, k < j →
          (rates.get ⟨k, hk⟩).is_rate row = false := by
  intro rates
  induction rates with
  | nil => intro i hi; exact absurd hi (Nat.not_lt_zero i)
  | cons r rest ih =>
    intro i hi h
    by_cases hr : r.is_rate row = true
    · refine ⟨0, Nat.succ_pos _, Nat.zero_le _, ?_, ?_, ?_⟩
      · simp [matchRateAux, hr]
      · simpa using hr
      · intro k hk hlt; omega
    · cases i with
      | zero => exact absurd (by simpa using h) hr
      | succ i' =>
        have hi' : i' < rest.length := by
          simpa using hi
        have h' : (rest.get ⟨i', hi'⟩).is_rate row = true := by
          simpa using h
        obtain ⟨j, hj, hji, hm, hjr, hk⟩ := ih i' hi' h'
        refine ⟨j + 1, Nat.succ_lt_succ hj, Nat.succ_le_succ hji, ?_, ?_, ?_⟩
        · simpa [matchRateAux, hr] using hm
        · simpa using hjr
        · intro k hk2 hklt
          cases k with
          | zero =>
            simpa using Bool.eq_false_iff.mpr hr
          | succ k' =>
            have hk' : k' < rest.length := by simpa using hk2
            have hkj : k' < j := by omega
            simpa using hk k' hk' hkj

/-- C1: at a reading on which `match_rate` finds no tier (Mar 1, 2025, where
no D1.2 tier matches), the cost defaults to exact zero as claimed, but the
Rate-column annotation `plan.match_rate(row).name` evaluates attribute
access on `None` — the modelled expression yields `none`, the raised
`AttributeError` — instead of leaving a sentinel and continuing, so the
claimed non-fatal behavior fails in the annotation loop. -/
theorem no_match_annotation_behavior :
    planD1_2.match_rate rowMar1 = none ∧
      annotateRateName planD1_2 rowMar1 = none ∧
      planD1_2.cost rowMar1 = 0 :=
  ⟨rfl, rfl, rfl⟩

/-- C2: the winter calendar window anchors both bounds to the year of the
candidate reading itself, so it matches Dec 15 of year Y and rejects Jul 1,
but it also rejects Mar 1 of year Y+1 — tested against
[Nov 1 (Y+1), May 31 (Y+2)] — contradicting the claimed
whichever-anchor-year wraparound semantics. -/
theorem winter_window_year_anchor :
    d12WinterCalCond.is_rate rowDec15 = true ∧
      d12WinterCalCond.is_rate rowMar1 = false ∧
      d12WinterCalCond.is_rate rowJul1 = false := by
  refine ⟨by decide, by decide, by decide⟩

/-- C3: the daily accumulator of the source is exactly the left fold the
spec describes — running total reset on a strictly later date, hourly usage
added, result assigned — and on the example readings with usages 10 and 5
on day 1 and 3 on day 2 it produces cumulative values 10, 15, 3. -/
theorem daily_reset_left_fold :
    (∀ rows : List RawRow,
        (dailyAnnotate rows).map Row.dailyCumulative =
          specDailyCumulative rows) ∧
      (dailyAnnotate exampleRawRows).map Row.dailyCumulative = [10, 15, 3] := by
  constructor
  · intro rows
    cases rows with
    | nil => rfl
    | cons r rest => exact dailyGo_eq_accumFold (r :: rest) (TS.date r.ts) 0
  · norm_num [dailyAnnotate, exampleRawRows, dailyGo, TS.date, dateLtb]

/-- C4: for every reading with in-range minute, second and microsecond
fields, the midnight-crossing off-peak hour window 19:00-10:59 evaluates as
the OR of the inclusive hour ranges [19, 23] and [0, 10]; in particular it
matches hours 19, 23, 0 and 10 and rejects hours 11 and 18. -/
theorem midnight_crossing_hour_window :
    (∀ row : Row, row.ts.hour < 24 → row.ts.minute < 60 →
      row.ts.second < 60 → row.ts.micro < 1000000 →
      d12OffPeakHourCond.is_rate row =
        ((decide (19 ≤ row.ts.hour) && decide (row.ts.hour ≤ 23)) ||
          (decide (0 ≤ row.ts.hour) && decide (row.ts.hour ≤ 10)))) ∧
      d12OffPeakHourCond.is_rate (hourRow 19) = true ∧
      d12OffPeakHourCond.is_rate (hourRow 23) = true ∧
      d12OffPeakHourCond.is_rate (hourRow 0) = true ∧
      d12OffPeakHourCond.is_rate (hourRow 10) = true ∧
      d12OffPeakHourCond.is_rate (hourRow 11) = false ∧
      d12OffPeakHourCond.is_rate (hourRow 18) = false := by
  refine ⟨?_, by decide, by decide, by decide, by decide, by decide, by decide⟩
  intro row h1 h2 h3 h4
  obtain ⟨ts, ht, dc⟩ := row
  obtain ⟨y, m, d, hh, mi, s, u⟩ := ts
  simp only at h1 h2 h3 h4
  simp only [d12OffPeakHourCond, RateCondition.is_rate, TS.isBetween,
    TS.replaceHour, TS.ceilHour, TS.leb]
  rw [Bool.eq_iff_iff]
  simp only [Bool.or_eq_true, Bool.and_eq_true, decide_eq_true_eq,
    lt_self_iff_false, le_refl, true_and, and_true, false_or, or_false]
  omega

/-- C4 witness: the general hour-window theorem applied at the concrete
reading of hour 19. -/
theorem midnight_crossing_hour_window_witness :
    ((hourRow 19).ts.hour < 24 ∧ (hourRow 19).ts.minute < 60 ∧
      (hourRow 19).ts.second < 60 ∧ (hourRow 19).ts.micro < 1000000) ∧
      d12OffPeakHourCond.is_rate (hourRow 19) =
        ((decide (19 ≤ (hourRow 19).ts.hour) &&
            decide ((hourRow 19).ts.hour ≤ 23)) ||
          (decide (0 ≤ (hourRow 19).ts.hour) &&
            decide ((hourRow 19).ts.hour ≤ 10))) :=
  ⟨⟨by decide, by decide, by decide, by decide⟩,
    midnight_crossing_hour_window.1 (hourRow 19)
      (by decide) (by decide) (by decide) (by decide)⟩

/-- C5: the tier cost of the source equals the spec formula — zero when the
tier does not apply, otherwise hourly usage times the sum of the three
charges divided by 100 in exact decimal arithmetic — and on hourly usage
2.5 with charges 6.611, 4.500 and 4.176 the cost is exactly 0.382175, while
the non-applying tier costs exactly zero. -/
theorem tier_cost_formula :
    (∀ (r : PlanRate) (row : Row), r.cost row = costPerSpec r row) ∧
      d1Rate1.cost rowDec15 = 382175/1000000 ∧
      d1Rate2.cost rowDec15 = 0 := by
  refine ⟨?_, ?_, ?_⟩
  · intro r row
    cases h : r.is_rate row <;> simp [PlanRate.cost, costPerSpec, h]
  · have h : d1Rate1.is_rate rowDec15 = true := by decide
    rw [PlanRate.cost, h]
    norm_num [d1Rate1, rowDec15]
  · have h : d1Rate2.is_rate rowDec15 = false := by decide
    rw [PlanRate.cost, h]
    norm_num

/-- C6: tier resolution is first-match in declared order: whenever some tier
at index `i` satisfies its conditions, `match_rate` returns a matching tier
at an index `j ≤ i` such that every earlier-declared tier fails; hence when
two tiers both match, the earlier-declared one is returned. -/
theorem first_match_priority (p : PricePlan) (row : Row) (i : Nat)
    (hi : i < p.rates.length)
    (h : (p.rates.get ⟨i, hi⟩).is_rate row = true) :
    ∃ j, ∃ hj : j < p.rates.length, j ≤ i ∧
      p.match_rate row = some (p.rates.get ⟨j, hj⟩) ∧
      (p.rates.get ⟨j, hj⟩).is_rate row = true ∧
      ∀ k, ∀ hk : k < p.rates.length, k < j →
        (p.rates.get ⟨k, hk⟩).is_rate row = false :=
  matchRateAux_first row p.rates i hi h

/-- C6 witness: the first-match theorem applied to plan D1 at a reading with
daily cumulative 10, whose first tier matches. -/
theorem first_match_priority_witness :
    (0 < planD1.rates.length ∧ d1Rate1.is_rate rowDec15 = true) ∧
      (∃ j, ∃ hj : j < planD1.rates.length, j ≤ 0 ∧
        planD1.match_rate rowDec15 = some (planD1.rates.get ⟨j, hj⟩) ∧
        (planD1.rates.get ⟨j, hj⟩).is_rate rowDec15 = true ∧
        ∀ k, ∀ hk : k < planD1.rates.length, k < j →
          (planD1.rates.get ⟨k, hk⟩).is_rate rowDec15 = false) :=
  ⟨⟨by decide, by decide⟩,
    first_match_priority planD1 rowDec15 0 (by decide) (by decide)⟩

/-- C7: calendar-window boundary dates are not inclusively matched at every
hour: a reading on Jun 1 at midnight matches the summer window, but a
reading on Jun 1 at 13:00 does not (the lower bound keeps the time of day
of the reading while the candidate is floored to midnight), and likewise a
reading on Nov 1 at 13:00 fails the winter window; the end-boundary date
Oct 31 matches at 13:00. -/
theorem boundary_date_inclusivity :
    d12SummerCalCond.is_rate rowJun1Mid = true ∧
      d12SummerCalCond.is_rate rowJun1Pm = false ∧
      d12SummerCalCond.is_rate rowOct31Pm = true ∧
      d12WinterCalCond.is_rate rowNov1Pm = false := by
  refine ⟨by decide, by decide, by decide, by decide⟩

/-- C8: threshold conditions compare the daily cumulative usage exactly: at
exactly 17 the condition `<=17` matches and `>17` does not, and at 17.0001
the condition `>17` matches and `<=17` does not. -/
theorem threshold_exact_decimal :
    d1CondLe17.is_rate row17 = true ∧ d1CondGt17.is_rate row17 = false ∧
      d1CondGt17.is_rate row17plus = true ∧
      d1CondLe17.is_rate row17plus = false := by
  refine ⟨?_, ?_, ?_, ?_⟩ <;>
    norm_num [d1CondLe17, d1CondGt17, RateCondition.is_rate, row17, row17plus]

/-- C9 counterexample: a tariff with zero rate tiers is not rejected at
construction — the dataclass constructor accepts the empty tier list and the
resulting plan is a usable tariff value on which `match_rate` and `cost`
evaluate, returning the no-match results. -/
theorem zero_tier_plan_accepted :
    emptyPlan.rates = [] ∧ emptyPlan.match_rate rowDec15 = none ∧
      emptyPlan.cost rowDec15 = 0 :=
  ⟨rfl, rfl, rfl⟩

/-- C9 amended: a tariff configured with zero rate tiers is accepted at
construction, and for every reading it resolves no tier and costs exact
zero. -/
theorem zero_tier_plan_behavior :
    ∀ row : Row, emptyPlan.match_rate row = none ∧ emptyPlan.cost row = 0 :=
  fun _ => ⟨rfl, rfl⟩

/-- C10: tier resolution is deterministic over the immutable configuration:
whenever `match_rate` resolves a tier, the annotated Rate name is the name
of that tier and the annotated plan cost equals the cost of that same tier,
so the two separate evaluations of the annotation loop describe one
tier. -/
theorem rate_and_cost_coherent (p : PricePlan) (row : Row) (r : PlanRate)
    (h : p.match_rate row = some r) :
    annotateRateName p row = some r.name ∧ p.cost row = r.cost row := by
  constructor
  · simp [annotateRateName, h]
  · simp [PricePlan.cost, h]

/-- C10 witness: the coherence theorem applied to plan D1 at a concrete
reading resolved to the first tier. -/
theorem rate_and_cost_coherent_witness :
    planD1.match_rate rowDec15 = some d1Rate1 ∧
      (annotateRateName planD1 rowDec15 = some d1Rate1.name ∧
        planD1.cost rowDec15 = d1Rate1.cost rowDec15) :=
  ⟨rfl, rate_and_cost_coherent planD1 rowDec15 d1Rate1 rfl⟩

end CalcPlans
